import Mathlib

/-!
# Verification of the flask_scraper service (`src/app.py`)

A shallow embedding of the single-file web service `app.py`: an HTTP
endpoint that accepts a list of page URLs, fetches each page with a
retrying GET, parses its HTML for `<img>` tags, downloads the referenced
images into per-format subfolders, writes a spreadsheet summary and a ZIP
archive, and serves files for download.

External libraries (`requests`, BeautifulSoup, `openpyxl`, `zipfile`,
Flask, `os.makedirs`, `urlparse`, `urljoin`) are modelled as black boxes
supplied by an `Env` record: the network is a function from (url, timeout,
attempt index) to an outcome, directory creation and file writing may fail
with an `OSError`, HTML parsing is a function from text to a parsed page.
Plain string manipulation done by the Python code itself (`split`,
`strip`, `lower`, `os.path.basename`, `os.path.splitext`, `os.path.join`
in the simple forms used here) is implemented directly and faithfully.

Side effects (network attempts with their timeouts, sleeps, directories
created, files written) are recorded in an explicit effect log `FxLog`,
and exceptions are modelled with `Except`: a `.error` result of a function
is an exception propagating out of the corresponding Python function.
-/

namespace FlaskScraper

/-- The slash character. -/
def slashChar : Char := Char.ofNat 47

/-- The dot character. -/
def dotChar : Char := Char.ofNat 46

/-- Models Python `str.lower` on a single ASCII character (the only
characters the source applies it to are ASCII file extensions and
content types). -/
def lowerChar (c : Char) : Char :=
  if 65 ≤ c.toNat ∧ c.toNat ≤ 90 then Char.ofNat (c.toNat + 32) else c

/-- Models Python `str.lower` (ASCII). -/
def lowerStr (s : String) : String :=
  String.mk (s.data.map lowerChar)

/-- Whether the second list starts with the first. -/
def isPrefixList : List Char → List Char → Bool
  | [], _ => true
  | _ :: _, [] => false
  | x :: xs, y :: ys => x = y && isPrefixList xs ys

/-- Whether `needle` occurs as a contiguous sublist of the second argument. -/
def containsList (needle : List Char) : List Char → Bool
  | [] => isPrefixList needle []
  | y :: ys => isPrefixList needle (y :: ys) || containsList needle ys

/-- Python `needle in hay` for strings (substring test). -/
def containsSub (hay needle : String) : Bool :=
  containsList needle.data hay.data

/-- Python `str.split(sep)` for a single-character separator (the source
only splits on `"/"`, `"?"` and `"."`): the groups of characters between
occurrences of `c`, so the result is never empty and splitting the empty
string gives `[[]]`. -/
def splitOnCharList (c : Char) : List Char → List (List Char)
  | [] => [[]]
  | x :: xs =>
    let r := splitOnCharList c xs
    if x = c then [] :: r
    else
      match r with
      | [] => [[x]]
      | g :: gs => (x :: g) :: gs

/-- Python `s.split(c)` on strings, `c` a single character. -/
def splitChar (c : Char) (s : String) : List String :=
  (splitOnCharList c s.data).map String.mk

/-- Python `s.split(c)[-1]` (the split is never empty, so the default is
never used). -/
def lastSplit (s : String) (c : Char) : String :=
  (splitChar c s).getLastD ""

/-- Python `s.split(c)[0]`. -/
def firstSplit (s : String) (c : Char) : String :=
  (splitChar c s).headD ""

/-- Python `s.strip("/")`: remove leading and trailing `'/'` characters. -/
def stripSlashes (s : String) : String :=
  String.mk (((s.data.dropWhile (fun c => c = slashChar)).reverse.dropWhile
    (fun c => c = slashChar)).reverse)

/-- Models `os.path.basename`: the part after the last `'/'`. -/
def basename (p : String) : String :=
  lastSplit p slashChar

/-- Models `os.path.join a b` in the form used by the source: `a` is a
non-empty path without a trailing slash and `b` is relative. -/
def pathJoin (a b : String) : String :=
  a ++ "/" ++ b

/-- Holds iff every character of the list is a dot. -/
def allDots : List Char → Bool
  | [] => true
  | c :: cs => c = dotChar && allDots cs

/-- Models `os.path.splitext(s)[0]`: everything before the last dot,
except that a basename whose characters up to the last dot are all dots
(such as `".jpg"`) is returned whole.  The filenames this is applied to
contain no `'/'`. -/
def splitextRoot (s : String) : String :=
  let cs := s.data
  let revTail := cs.reverse.takeWhile (fun c => !(c = dotChar))
  if revTail.length = cs.length then s
  else
    let i := cs.length - revTail.length - 1
    if allDots (cs.take i) then s else String.mk (cs.take i)

/-! ## Constants of `app.py` -/

/-- Line 18: `OUTPUT_DIRECTORY = "/tmp/output"`. -/
def OUTPUT_DIRECTORY : String := "/tmp/output"

/-- Line 26: `RETRY_COUNT = 3`. -/
def RETRY_COUNT : Nat := 3

/-- Line 27: `RETRY_DELAY = 2` seconds. -/
def RETRY_DELAY : Nat := 2

/-- The extension whitelist of `download_file` (line 64). -/
def WHITELIST : List String := ["jpg", "jpeg", "png", "gif", "bmp", "webp"]

/-! ## Data model -/

/-- An HTTP response as used by the source: `headers.get("Content-Type")`,
`response.text` (HTML) and `response.content` (body bytes, abstracted as a
string). -/
structure Response where
  contentType : Option String
  text : String
  content : String
deriving DecidableEq, Repr

/-- Outcome of one `requests.get(url, headers=HEADERS, timeout=10)`
followed by `raise_for_status()`: either a response, or a
`requests.exceptions.RequestException` with message `msg`. -/
inductive ReqOutcome where
  | success (r : Response)
  | failure (msg : String)
deriving DecidableEq, Repr

/-- Python exceptions relevant to the source: `RequestException` raised
by the HTTP client, and `OSError` raised by `os.makedirs` / `open`. -/
inductive Exc where
  | requestException (msg : String)
  | osError (msg : String)
deriving DecidableEq, Repr

/-- An `<img>` tag as seen through BeautifulSoup: its `src`, `data-src`
and `data-lazy-src` attributes (`none` = attribute absent). -/
structure ImgTag where
  src : Option String
  dataSrc : Option String
  dataLazySrc : Option String
deriving DecidableEq, Repr

/-- A parsed HTML page: `soup.title.string` when the page has a title
(`none` = no title tag), and the list of `<img>` tags in document
order. -/
structure Page where
  title : Option String
  imgs : List ImgTag
deriving DecidableEq, Repr

/-- The black-box environment: network, filesystem and the external
libraries used by the source. -/
structure Env where
  /-- Models `requests.get(url, headers=HEADERS, timeout=t)` plus
  `raise_for_status()` on the given attempt (attempts are counted per `requests.get` call site
  invocation within one `send_request_with_retries` call). -/
  net : String → Nat → Nat → ReqOutcome
  /-- Models `create_directory p` (via `os.makedirs`): `none` = success,
  `some msg` = `OSError` raised. -/
  mkdir : String → Option String
  /-- Models `open(p, "wb").write(...)`: `none` = success, `some msg` = `OSError`. -/
  writeFile : String → Option String
  /-- Models `BeautifulSoup(text, "html.parser")`. -/
  parse : String → Page
  /-- Models `urljoin(base, ref)`. -/
  urljoin : String → String → String
  /-- Models `urlparse(url).path`. -/
  urlPath : String → String
  /-- Models `datetime.now().strftime(...)`, the timestamp string. -/
  now : String

/-- Effect log: the timeout passed to each network attempt in order, the
sleep durations in order, the directories created and the files written
(path, content). -/
structure FxLog where
  timeouts : List Nat
  sleeps : List Nat
  dirs : List String
  writes : List (String × String)
deriving DecidableEq, Repr

/-- The empty effect log. -/
def FxLog.nil : FxLog := ⟨[], [], [], []⟩

/-- Sequential composition of effect logs. -/
def FxLog.app (a b : FxLog) : FxLog :=
  ⟨a.timeouts ++ b.timeouts, a.sleeps ++ b.sleeps, a.dirs ++ b.dirs,
   a.writes ++ b.writes⟩

/-! ## `send_request_with_retries` (lines 36-48) -/

/-- The body of the `for attempt in range(RETRY_COUNT)` loop of
`send_request_with_retries`, starting at the given attempt index with the
given number of remaining iterations (`fuel = RETRY_COUNT - attempt` at
every call).  On failure the loop sleeps `RETRY_DELAY` and continues when
`attempt < RETRY_COUNT - 1`, and re-raises the exception otherwise.  The
`fuel = 0` case is unreachable because `RETRY_COUNT > 0`. -/
def retryLoop (env : Env) (url : String) (attempt : Nat) :
    Nat → Except Exc Response × FxLog
  | 0 => (.error (.requestException "unreachable"), FxLog.nil)
  | fuel + 1 =>
    match env.net url 10 attempt with
    | .success r => (.ok r, ⟨[10], [], [], []⟩)
    | .failure msg =>
      if attempt < RETRY_COUNT - 1 then
        let rest := retryLoop env url (attempt + 1) fuel
        (rest.1, FxLog.app ⟨[10], [RETRY_DELAY], [], []⟩ rest.2)
      else
        (.error (.requestException msg), ⟨[10], [], [], []⟩)

/-- Function `send_request_with_retries(url)`: up to `RETRY_COUNT` GET attempts
with timeout 10, sleeping `RETRY_DELAY` between failures, returning the
first successful response or re-raising the last `RequestException`. -/
def send_request_with_retries (env : Env) (url : String) :
    Except Exc Response × FxLog :=
  retryLoop env url 0 RETRY_COUNT

/-! ## `download_file` (lines 51-91) -/

/-- The question-mark character. -/
def questionChar : Char := Char.ofNat 63

/-- Line 55: `os.path.basename(url.split("?")[0]) or
f"image_{datetime.now().strftime(...)}"` (the empty string is falsy). -/
def filenameFor (env : Env) (url : String) : String :=
  let f0 := basename (firstSplit url questionChar)
  if f0 = "" then "image_" ++ env.now else f0

/-- Lines 56-58: `extension = filename.split(".")[-1].lower()` when
`"." in filename`, else `None`. -/
def extCandidate (filename : String) : Option String :=
  if containsSub filename "." then some (lowerStr (lastSplit filename dotChar))
  else none

/-- Line 64: `not extension or extension not in [...]` — `None` and the
empty string are falsy. -/
def needsSniff : Option String → Bool
  | none => true
  | some s => s = "" || !(WHITELIST.contains s)

/-- Lines 64-77: the final extension — the URL-derived candidate when it
is a non-empty whitelisted one, otherwise the first match of the
content-type substring table (`jpeg`→`jpg`, `png`, `gif`, `bmp`, `webp`,
checked in that order), and the fallback label when nothing matches. -/
def resolveExtension (extension : Option String) (contentType : Option String)
    (fallback_format : String) : String :=
  if needsSniff extension then
    let ct := lowerStr (contentType.getD "")
    if containsSub ct "jpeg" then "jpg"
    else if containsSub ct "png" then "png"
    else if containsSub ct "gif" then "gif"
    else if containsSub ct "bmp" then "bmp"
    else if containsSub ct "webp" then "webp"
    else fallback_format
  else extension.getD ""

/-- Function `download_file(url, folder_name, fallback_format)` (source default
`"unknown"`): returns the written path, or `none` when any exception was
raised inside the body — the `except Exception` handler (line 89) catches
everything and returns `None`, never propagating.  Effects recorded: the
network attempts of the embedded `send_request_with_retries` call, the
format directory ensured, and the file written. -/
def download_file (env : Env) (url folder_name fallback_format : String) :
    Option String × FxLog :=
  let filename := filenameFor env url
  let extension := extCandidate filename
  let fetch := send_request_with_retries env url
  match fetch.1 with
  | .error _ => (none, fetch.2)
  | .ok response =>
    let ext := resolveExtension extension response.contentType fallback_format
    let format_folder := pathJoin folder_name ext
    match env.mkdir format_folder with
    | some _ => (none, fetch.2)
    | none =>
      let file_path := pathJoin format_folder (splitextRoot filename ++ "." ++ ext)
      match env.writeFile file_path with
      | some _ => (none, FxLog.app fetch.2 ⟨[], [], [format_folder], []⟩)
      | none =>
        (some file_path,
         FxLog.app fetch.2 ⟨[], [], [format_folder], [(file_path, response.content)]⟩)

/-! ## `extract_images_and_metadata` (lines 94-134) -/

/-- Line 105: `urlparse(url).path.strip("/").split("/")[-1] or
"default_project"`. -/
def projectNameFor (env : Env) (url : String) : String :=
  let seg := lastSplit (stripSlashes (env.urlPath url)) slashChar
  if seg = "" then "default_project" else seg

/-- Python truthiness of an optional attribute value: absent and empty
strings are falsy. -/
def truthy : Option String → Option String
  | none => none
  | some s => if s = "" then none else some s

/-- Line 114: `img.get("src") or img.get("data-src") or
img.get("data-lazy-src")`. -/
def firstImgAttr (img : ImgTag) : Option String :=
  match truthy img.src with
  | some s => some s
  | none =>
    match truthy img.dataSrc with
    | some s => some s
    | none => truthy img.dataLazySrc

/-- Lines 112-116: the absolute image URLs of the page, in document
order, keeping only tags with a truthy `src`/`data-src`/`data-lazy-src`
and resolving each against the page URL. -/
def imgURLs (env : Env) (url : String) (response : Response) : List String :=
  ((env.parse response.text).imgs).filterMap
    (fun img => (firstImgAttr img).map (env.urljoin url))

/-- Lines 118-123: download every image URL in order, collecting the
paths of the successful downloads. -/
def downloadImages (env : Env) (project_folder : String) :
    List String → List String × FxLog
  | [] => ([], FxLog.nil)
  | u :: rest =>
    let d := download_file env u project_folder "unknown"
    let r := downloadImages env project_folder rest
    (match d.1 with
     | some p => p :: r.1
     | none => r.1,
     FxLog.app d.2 r.2)

/-- A per-page result dictionary: `{url, title, project_name,
image_count, project_folder}` on success, `{url, error}` on a caught
failure. -/
inductive Entry where
  | ok (url title project_name : String) (image_count : Nat) (project_folder : String)
  | err (url error : String)
deriving DecidableEq, Repr

/-- The `url` field of a result dictionary. -/
def Entry.urlOf : Entry → String
  | .ok u _ _ _ _ => u
  | .err u _ => u

/-- Function `extract_images_and_metadata(url, output_folder)`.  The `try` block
spans the whole body, but the handler (line 132) catches only
`requests.exceptions.RequestException`, converting it to a `{url, error}`
dictionary; any other exception — such as an `OSError` from
`create_directory` — propagates out (`.error`). -/
def extract_images_and_metadata (env : Env) (url output_folder : String) :
    Except Exc Entry × FxLog :=
  let fetch := send_request_with_retries env url
  match fetch.1 with
  | .error (.requestException msg) => (.ok (.err url msg), fetch.2)
  | .error (.osError msg) => (.error (.osError msg), fetch.2)
  | .ok response =>
    let title := (env.parse response.text).title.getD "No Title Available"
    let project_name := projectNameFor env url
    let project_folder := pathJoin output_folder project_name
    match env.mkdir project_folder with
    | some msg => (.error (.osError msg), fetch.2)
    | none =>
      let dl := downloadImages env project_folder (imgURLs env url response)
      (.ok (.ok url title project_name dl.1.length project_folder),
       FxLog.app fetch.2 (FxLog.app ⟨[], [], [project_folder], []⟩ dl.2))

/-! ## `save_to_excel` (lines 137-154) and `create_zip` (lines 157-167) -/

/-- A spreadsheet cell (the source writes strings and one integer). -/
inductive Cell where
  | s (v : String)
  | n (v : Nat)
deriving DecidableEq, Repr

/-- The fixed header row (line 143). -/
def excelHeader : List Cell :=
  [.s "URL", .s "Title", .s "Project Name", .s "Image Count",
   .s "Folder Location", .s "Error?"]

/-- Lines 144-152: one data row per entry; missing keys fall back to
`"No Title"`, `""`, `0`, `""`, and the error flag is `"Yes"` exactly when
the entry has an `error` key. -/
def excelRowOf : Entry → List Cell
  | .ok u t pn ic pf => [.s u, .s t, .s pn, .n ic, .s pf, .s "No"]
  | .err u _ => [.s u, .s "No Title", .s "", .n 0, .s "", .s "Yes"]

/-- Function `save_to_excel(data, output_folder)`: the workbook is modelled by its
path and its list of rows (header first). -/
def save_to_excel (data : List Entry) (output_folder : String) :
    String × List (List Cell) :=
  (pathJoin output_folder "Scraped_Data.xlsx", excelHeader :: data.map excelRowOf)

/-- Function `create_zip(output_folder)`: modelled by the archive path it
returns. -/
def create_zip (env : Env) : String :=
  pathJoin OUTPUT_DIRECTORY ("Scraped_Data_" ++ env.now ++ ".zip")

/-! ## Route layer (lines 175-212) -/

/-- Lines 187-193: process the URLs in order, appending each page's
result and sleeping 1 second after it.  An exception escaping
`extract_images_and_metadata` aborts the loop (there is no handler in
`scrape`). -/
def scrapeLoop (env : Env) (output_folder : String) :
    List String → Except Exc (List Entry) × FxLog
  | [] => (.ok [], FxLog.nil)
  | url :: rest =>
    let p := extract_images_and_metadata env url output_folder
    match p.1 with
    | .error e => (.error e, p.2)
    | .ok entry =>
      let r := scrapeLoop env output_folder rest
      (match r.1 with
       | .error e => .error e
       | .ok entries => .ok (entry :: entries),
       FxLog.app p.2 (FxLog.app ⟨[], [1], [], []⟩ r.2))

/-- Response of the `/scrape` endpoint: a 400 error payload, a 200
summary (results, spreadsheet path and rows, archive path), or an
uncaught exception (which the framework would surface as a 500). -/
inductive ScrapeResp where
  | badRequest (error : String)
  | completed (results : List Entry) (excelPath : String)
      (excelRows : List (List Cell)) (zip_file_path : String)
  | exception (e : Exc)
deriving DecidableEq, Repr

/-- Route `POST /scrape` (lines 175-203).  `urlsField` is the `urls` field of
the JSON body (`none` = missing, defaulted to `[]` by
`request.json.get("urls", [])`); an empty list yields the 400 payload
`{"error": "No URLs provided."}`. -/
def scrape (env : Env) (urlsField : Option (List String)) : ScrapeResp × FxLog :=
  let urls := urlsField.getD []
  if urls.isEmpty then (.badRequest "No URLs provided.", FxLog.nil)
  else
    let output_folder := pathJoin OUTPUT_DIRECTORY ("scraped_" ++ env.now)
    match env.mkdir output_folder with
    | some msg => (.exception (.osError msg), FxLog.nil)
    | none =>
      let r := scrapeLoop env output_folder urls
      (match r.1 with
       | .error e => .exception e
       | .ok results =>
         .completed results (save_to_excel results output_folder).1
           (save_to_excel results output_folder).2 (create_zip env),
       FxLog.app ⟨[], [], [output_folder], []⟩ r.2)

/-- Response of the `/download` endpoint: a 404 error payload or the file
served as an attachment. -/
inductive DownloadResp where
  | notFound (error : String)
  | sendFile (path : String)
deriving DecidableEq, Repr

/-- Route `GET /download` (lines 206-212).  `pathArg` is the `path` query
parameter (`none` = absent); `fsExists` is `os.path.exists`.  `if not
zip_file_path or not os.path.exists(zip_file_path)` yields the 404
payload; otherwise the file is sent as an attachment — with no check that
the path lies under `OUTPUT_DIRECTORY`. -/
def download (fsExists : String → Bool) (pathArg : Option String) : DownloadResp :=
  match pathArg with
  | none => .notFound "File not found."
  | some p =>
    if p = "" then .notFound "File not found."
    else if fsExists p then .sendFile p
    else .notFound "File not found."

/-! ## Helper lemmas -/

/-- Unfolding of `send_request_with_retries`: since `RETRY_COUNT = 3`, the
loop is one, two or three attempts, with a `RETRY_DELAY` sleep recorded
after each failed attempt except the last. -/
theorem send_unfold (env : Env) (url : String) :
    send_request_with_retries env url =
      match env.net url 10 0 with
      | .success r => (.ok r, ⟨[10], [], [], []⟩)
      | .failure _ =>
        match env.net url 10 1 with
        | .success r => (.ok r, ⟨[10, 10], [2], [], []⟩)
        | .failure _ =>
          match env.net url 10 2 with
          | .success r => (.ok r, ⟨[10, 10, 10], [2, 2], [], []⟩)
          | .failure m => (.error (.requestException m), ⟨[10, 10, 10], [2, 2], [], []⟩) := by
  rcases h0 : env.net url 10 0 with r0 | m0 <;>
    rcases h1 : env.net url 10 1 with r1 | m1 <;>
      rcases h2 : env.net url 10 2 with r2 | m2 <;>
        simp [send_request_with_retries, retryLoop, FxLog.app, h0, h1, h2,
          RETRY_COUNT, RETRY_DELAY]

/-- Every network attempt of the retrying fetcher is made with timeout
10, and every sleep between attempts lasts `RETRY_DELAY`. -/
theorem send_fixed_timeout_and_delay (env : Env) (url : String) :
    (∀ x ∈ (send_request_with_retries env url).2.timeouts, x = 10) ∧
    (∀ x ∈ (send_request_with_retries env url).2.sleeps, x = RETRY_DELAY) := by
  rw [send_unfold]
  rcases h0 : env.net url 10 0 with r0 | m0 <;>
    rcases h1 : env.net url 10 1 with r1 | m1 <;>
      rcases h2 : env.net url 10 2 with r2 | m2 <;>
        simp [RETRY_DELAY]

/-- The retrying fetcher makes between 1 and `RETRY_COUNT` attempts, and
sleeps exactly once per attempt except the last (no sleep after the final
attempt). -/
theorem send_attempt_counts (env : Env) (url : String) :
    1 ≤ (send_request_with_retries env url).2.timeouts.length ∧
    (send_request_with_retries env url).2.timeouts.length ≤ RETRY_COUNT ∧
    (send_request_with_retries env url).2.sleeps.length
      = (send_request_with_retries env url).2.timeouts.length - 1 := by
  rw [send_unfold]
  rcases h0 : env.net url 10 0 with r0 | m0 <;>
    rcases h1 : env.net url 10 1 with r1 | m1 <;>
      rcases h2 : env.net url 10 2 with r2 | m2 <;>
        simp [RETRY_COUNT]

/-- When the retrying fetcher returns a response, it is the response of
the first successful attempt: all earlier attempts failed, and no attempt
was made after it. -/
theorem send_ok_first_success (env : Env) (url : String) (r : Response)
    (h : (send_request_with_retries env url).1 = Except.ok r) :
    ∃ i, i < RETRY_COUNT ∧ env.net url 10 i = .success r ∧
      (send_request_with_retries env url).2.timeouts.length = i + 1 ∧
      ∀ j, j < i → ∃ m, env.net url 10 j = .failure m := by
  rw [send_unfold] at h ⊢
  rcases h0 : env.net url 10 0 with r0 | m0
  · simp only [h0] at h ⊢
    refine ⟨0, by simp [RETRY_COUNT], ?_, by simp, fun j hj => absurd hj (Nat.not_lt_zero j)⟩
    simp_all
  · rcases h1 : env.net url 10 1 with r1 | m1
    · simp only [h0, h1] at h ⊢
      refine ⟨1, by simp [RETRY_COUNT], ?_, by simp, ?_⟩
      · simp_all
      · intro j hj
        interval_cases j
        exact ⟨m0, h0⟩
    · rcases h2 : env.net url 10 2 with r2 | m2
      · simp only [h0, h1, h2] at h ⊢
        refine ⟨2, by simp [RETRY_COUNT], ?_, by simp, ?_⟩
        · simp_all
        · intro j hj
          interval_cases j
          · exact ⟨m0, h0⟩
          · exact ⟨m1, h1⟩
      · simp only [h0, h1, h2] at h
        exact absurd h (by simp)

/-- When the retrying fetcher raises, all `RETRY_COUNT` attempts were
made and failed, and the exception raised is the `RequestException` of
the final attempt. -/
theorem send_error_exhausted (env : Env) (url : String) (e : Exc)
    (h : (send_request_with_retries env url).1 = Except.error e) :
    (send_request_with_retries env url).2.timeouts.length = RETRY_COUNT ∧
    (∃ m, e = Exc.requestException m ∧
       env.net url 10 (RETRY_COUNT - 1) = .failure m) ∧
    ∀ j, j < RETRY_COUNT → ∃ m, env.net url 10 j = .failure m := by
  rw [send_unfold] at h ⊢
  rcases h0 : env.net url 10 0 with r0 | m0
  · simp only [h0] at h
    exact absurd h (by simp)
  · rcases h1 : env.net url 10 1 with r1 | m1
    · simp only [h0, h1] at h
      exact absurd h (by simp)
    · rcases h2 : env.net url 10 2 with r2 | m2
      · simp only [h0, h1, h2] at h
        exact absurd h (by simp)
      · simp only [h0, h1, h2] at h ⊢
        refine ⟨by simp [RETRY_COUNT], ⟨m2, ?_, by simp [RETRY_COUNT, h2]⟩, ?_⟩
        · simp_all
        · intro j hj
          simp only [RETRY_COUNT] at hj
          interval_cases j
          · exact ⟨m0, h0⟩
          · exact ⟨m1, h1⟩
          · exact ⟨m2, h2⟩

/-- Unfolding of `download_file` into its sequential steps. -/
theorem download_file_eq (env : Env) (url folder fb : String) :
    download_file env url folder fb =
      match (send_request_with_retries env url).1 with
      | .error _ => (none, (send_request_with_retries env url).2)
      | .ok response =>
        let ext := resolveExtension (extCandidate (filenameFor env url))
          response.contentType fb
        let format_folder := pathJoin folder ext
        match env.mkdir format_folder with
        | some _ => (none, (send_request_with_retries env url).2)
        | none =>
          let file_path := pathJoin format_folder
            (splitextRoot (filenameFor env url) ++ "." ++ ext)
          match env.writeFile file_path with
          | some _ =>
            (none, FxLog.app (send_request_with_retries env url).2
              ⟨[], [], [format_folder], []⟩)
          | none =>
            (some file_path, FxLog.app (send_request_with_retries env url).2
              ⟨[], [], [format_folder], [(file_path, response.content)]⟩) := rfl

/-! ## Concrete environments used as witnesses -/

/-- An environment whose network always fails with message `"boom"`;
directory creation and file writes succeed; pages parse to a titled page
with no images. -/
def envFail : Env :=
  ⟨fun _ _ _ => .failure "boom", fun _ => none, fun _ => none,
   fun _ => ⟨some "T", []⟩, fun _ r => r, fun u => u, "TS"⟩

/-- An environment whose network always serves a PNG-typed response, with
a page containing two `<img>` tags. -/
def envPng : Env :=
  ⟨fun _ _ _ => .success ⟨some "image/png", "<html>", "BYTES"⟩, fun _ => none,
   fun _ => none,
   fun _ => ⟨some "T", [⟨some "http://h/i1.png", none, none⟩,
                        ⟨some "http://h/i2.png", none, none⟩]⟩,
   fun _ r => r, fun _ => "/p/page", "TS"⟩

/-- An environment whose network fails only for `http://h/bad.png`; the
page has one good and one bad image. -/
def envMixed : Env :=
  ⟨fun u _ _ =>
     if u = "http://h/bad.png" then .failure "down"
     else .success ⟨some "image/png", "<html>", "B"⟩,
   fun _ => none, fun _ => none,
   fun _ => ⟨some "T", [⟨some "http://h/good.png", none, none⟩,
                        ⟨some "http://h/bad.png", none, none⟩]⟩,
   fun _ r => r, fun _ => "/p/page", "TS"⟩

/-- An environment where the network succeeds but every directory
creation raises `OSError "Permission denied"`. -/
def envMkdirFail : Env :=
  ⟨fun _ _ _ => .success ⟨some "image/png", "<html>", "B"⟩,
   fun _ => some "Permission denied", fun _ => none,
   fun _ => ⟨some "T", []⟩, fun _ r => r, fun _ => "/p/page", "TS"⟩

/-! ## C5 — retry policy of the fetcher -/

/-- C5 (confirmed): `send_request_with_retries` attempts an HTTP GET up
to 3 times, every attempt with the fixed timeout 10; it sleeps the fixed
delay 2 between consecutive failed attempts and never after the last one
(the sleep count is one less than the attempt count); when it returns a
response it is that of the first successful attempt (all earlier attempts
failed, none later was made); and after the third failed attempt it
re-raises the final attempt's `RequestException` to the caller. -/
theorem C5_retry_policy (env : Env) (url : String) :
    (∀ x ∈ (send_request_with_retries env url).2.timeouts, x = 10) ∧
    (∀ x ∈ (send_request_with_retries env url).2.sleeps, x = RETRY_DELAY) ∧
    1 ≤ (send_request_with_retries env url).2.timeouts.length ∧
    (send_request_with_retries env url).2.timeouts.length ≤ RETRY_COUNT ∧
    (send_request_with_retries env url).2.sleeps.length
      = (send_request_with_retries env url).2.timeouts.length - 1 ∧
    (∀ r, (send_request_with_retries env url).1 = Except.ok r →
      ∃ i, i < RETRY_COUNT ∧ env.net url 10 i = .success r ∧
        (send_request_with_retries env url).2.timeouts.length = i + 1 ∧
        ∀ j, j < i → ∃ m, env.net url 10 j = .failure m) ∧
    (∀ e, (send_request_with_retries env url).1 = Except.error e →
      (send_request_with_retries env url).2.timeouts.length = RETRY_COUNT ∧
      (∃ m, e = Exc.requestException m ∧
         env.net url 10 (RETRY_COUNT - 1) = .failure m) ∧
      ∀ j, j < RETRY_COUNT → ∃ m, env.net url 10 j = .failure m) :=
  ⟨(send_fixed_timeout_and_delay env url).1,
   (send_fixed_timeout_and_delay env url).2,
   (send_attempt_counts env url).1,
   (send_attempt_counts env url).2.1,
   (send_attempt_counts env url).2.2,
   fun r h => send_ok_first_success env url r h,
   fun e h => send_error_exhausted env url e h⟩

/-- C5 witness: on the always-failing environment the fetcher makes all
3 attempts and re-raises the last failure. -/
theorem C5_retry_policy_witness :
    (send_request_with_retries envFail "http://a").2.timeouts.length = RETRY_COUNT ∧
    (∃ m, Exc.requestException "boom" = Exc.requestException m ∧
       envFail.net "http://a" 10 (RETRY_COUNT - 1) = .failure m) ∧
    ∀ j, j < RETRY_COUNT → ∃ m, envFail.net "http://a" 10 j = .failure m :=
  (C5_retry_policy envFail "http://a").2.2.2.2.2.2
    (Exc.requestException "boom") rfl

/-! ## C1 — retries for image downloads -/

/-- C1 counterexample: the claim says every image URL passed to
`download_file` is fetched with a single attempt; on an environment whose
network keeps failing, `download_file` makes three attempts (three
timeouts recorded) and sleeps twice in between. -/
theorem C1_counterexample :
    (download_file envFail "http://x/a.jpg" "/tmp/output/scraped_TS/p"
       "unknown").2.timeouts = [10, 10, 10] ∧
    (download_file envFail "http://x/a.jpg" "/tmp/output/scraped_TS/p"
       "unknown").2.sleeps = [2, 2] :=
  ⟨rfl, rfl⟩

/-- C1 amended (proved): image downloads are NOT single-attempt: for
every image URL, `download_file` fetches through the same retrying
fetcher as the page fetch — its network attempts and sleeps are exactly
those of `send_request_with_retries` on that URL (up to `RETRY_COUNT`
attempts with `RETRY_DELAY` sleeps between failures). -/
theorem C1_image_downloads_use_retries (env : Env) (url folder fb : String) :
    (download_file env url folder fb).2.timeouts
      = (send_request_with_retries env url).2.timeouts ∧
    (download_file env url folder fb).2.sleeps
      = (send_request_with_retries env url).2.sleeps := by
  rw [download_file_eq]
  rcases h : (send_request_with_retries env url).1 with e | r
  · simp
  · rcases hm : env.mkdir (pathJoin folder (resolveExtension
        (extCandidate (filenameFor env url)) r.contentType fb)) with _ | m
    · rcases hw : env.writeFile (pathJoin (pathJoin folder (resolveExtension
          (extCandidate (filenameFor env url)) r.contentType fb))
          (splitextRoot (filenameFor env url) ++ "." ++ resolveExtension
            (extCandidate (filenameFor env url)) r.contentType fb)) with _ | w
      · simp [hm, hw, FxLog.app]
      · simp [hm, hw, FxLog.app]
    · simp [hm]

/-! ## C2 and C7 — extension inference in `download_file` -/

/-- Lemma: the fetcher never touches the filesystem: its effect log has
no created directories and no written files. -/
theorem send_no_fs_effects (env : Env) (url : String) :
    (send_request_with_retries env url).2.dirs = [] ∧
    (send_request_with_retries env url).2.writes = [] := by
  rw [send_unfold]
  rcases h0 : env.net url 10 0 with r0 | m0 <;>
    rcases h1 : env.net url 10 1 with r1 | m1 <;>
      rcases h2 : env.net url 10 2 with r2 | m2 <;> simp

/-- C2 counterexample: a URL ending in `.jpg` whose response carries
content-type `image/png` is written under the `jpg` subfolder with a
`.jpg` suffix, not under `png` with `.png` — the claim that the
content-type sniff takes precedence over the URL's `.jpg` suffix is false
at this input. -/
theorem C2_counterexample :
    (download_file envPng "http://h/photo.jpg" "/f" "unknown").1
        = some "/f/jpg/photo.jpg" ∧
    (download_file envPng "http://h/photo.jpg" "/f" "unknown").1
        ≠ some "/f/png/photo.png" := ⟨rfl, by decide⟩

/-- C2 amended (proved): when the filename derived from the image URL has
a non-empty whitelisted extension `e` (such as `jpg`), the content-type
sniff is skipped entirely: whatever the response's content-type, the file
is written under the `e` subfolder with an `.e` suffix.  Content-type
takes precedence only over an absent or non-whitelisted URL suffix. -/
theorem C2_whitelisted_suffix_wins (env : Env) (url folder fb e : String)
    (he : extCandidate (filenameFor env url) = some e)
    (hne : e ≠ "") (hwl : WHITELIST.contains e = true) (r : Response)
    (hfetch : (send_request_with_retries env url).1 = Except.ok r)
    (hmk : env.mkdir (pathJoin folder e) = none)
    (hwr : env.writeFile (pathJoin (pathJoin folder e)
      (splitextRoot (filenameFor env url) ++ "." ++ e)) = none) :
    (download_file env url folder fb).1
      = some (pathJoin (pathJoin folder e)
          (splitextRoot (filenameFor env url) ++ "." ++ e)) := by
  have hmem : e ∈ WHITELIST := by simpa using hwl
  have hre : resolveExtension (extCandidate (filenameFor env url))
      r.contentType fb = e := by
    simp [resolveExtension, he, needsSniff, hne, hmem]
  rw [download_file_eq, hfetch]
  simp [hre, hmk, hwr]

/-- C2 witness: the amended statement at the concrete `.jpg`-URL/PNG
content-type input of the counterexample. -/
theorem C2_whitelisted_suffix_wins_witness :
    (download_file envPng "http://h/photo.jpg" "/f" "unknown").1
      = some (pathJoin (pathJoin "/f" "jpg")
          (splitextRoot (filenameFor envPng "http://h/photo.jpg") ++ "." ++ "jpg")) :=
  C2_whitelisted_suffix_wins envPng "http://h/photo.jpg" "/f" "unknown" "jpg"
    (by decide) (by decide) (by decide) ⟨some "image/png", "<html>", "BYTES"⟩ rfl rfl rfl

/-- C7 (confirmed): for every download: when the fetch succeeds and the
filesystem cooperates, the file is written under the subdirectory named
after the final extension with that extension as suffix; the candidate
extension is the lower-cased suffix of the filename (case-insensitive);
when the candidate is absent, empty or not whitelisted it is reclassified
by substring-matching the content-type in the fixed order jpeg→jpg, png,
gif, bmp, webp, falling back to the fallback label; and a non-empty
whitelisted candidate is kept as is. -/
theorem C7_extension_rule (env : Env) (url folder fb : String) (r : Response)
    (hfetch : (send_request_with_retries env url).1 = Except.ok r)
    (hmk : ∀ d, env.mkdir d = none) (hwr : ∀ q, env.writeFile q = none) :
    (download_file env url folder fb).1
      = some (pathJoin
          (pathJoin folder
            (resolveExtension (extCandidate (filenameFor env url)) r.contentType fb))
          (splitextRoot (filenameFor env url) ++ "." ++
            resolveExtension (extCandidate (filenameFor env url)) r.contentType fb)) ∧
    (∀ f e, extCandidate f = some e → e = lowerStr (lastSplit f dotChar)) ∧
    (∀ x : Option String, needsSniff x = true → ∀ ct : Option String,
      resolveExtension x ct fb =
        (if containsSub (lowerStr (ct.getD "")) "jpeg" then "jpg"
         else if containsSub (lowerStr (ct.getD "")) "png" then "png"
         else if containsSub (lowerStr (ct.getD "")) "gif" then "gif"
         else if containsSub (lowerStr (ct.getD "")) "bmp" then "bmp"
         else if containsSub (lowerStr (ct.getD "")) "webp" then "webp"
         else fb)) ∧
    (∀ e, needsSniff (some e) = false → ∀ ct : Option String,
      resolveExtension (some e) ct fb = e) ∧
    (∀ e, needsSniff (some e) = false ↔ (e ≠ "" ∧ e ∈ WHITELIST)) ∧
    needsSniff none = true := by
  refine ⟨?_, ?_, ?_, ?_, ?_, rfl⟩
  · rw [download_file_eq, hfetch]
    simp [hmk, hwr]
  · intro f e h
    by_cases hc : containsSub f "." = true
    · simp [extCandidate, hc] at h
      simp [h]
    · simp [extCandidate, hc] at h
  · intro x hx ct
    simp [resolveExtension, hx]
  · intro e he ct
    simp [resolveExtension, he]
  · intro e
    simp [needsSniff]

/-- C7 witness: a URL with no extension served as `image/png` lands under
the `png` subfolder with a `.png` suffix. -/
theorem C7_extension_rule_witness :
    (download_file envPng "http://h/photo" "/f" "unknown").1 = some "/f/png/photo.png" :=
  (C7_extension_rule envPng "http://h/photo" "/f" "unknown"
    ⟨some "image/png", "<html>", "BYTES"⟩ rfl (fun _ => rfl) (fun _ => rfl)).1

/-! ## C3 and C8 — page-level exception handling -/

/-- C3 counterexample: an `OSError` raised while creating the project
folder (part of the per-page processing) is NOT converted into a
`{url, error}` result: it propagates out of the per-page function — the
claim that no exception from per-page processing propagates is false at
this input. -/
theorem C3_counterexample :
    (extract_images_and_metadata envMkdirFail "http://h/p/page" "/out").1
      = Except.error (Exc.osError "Permission denied") := rfl

/-- C3 amended (proved): the page-level handler catches only
`requests.exceptions.RequestException`: a fetch failure is converted into
the `{url, error}` result, and any exception that does escape the
per-page function is an `OSError` (from folder creation), which the
handler does not catch. -/
theorem C3_page_level_catch (env : Env) (url of : String) :
    (∀ msg, (send_request_with_retries env url).1
        = Except.error (Exc.requestException msg) →
      (extract_images_and_metadata env url of).1 = Except.ok (Entry.err url msg)) ∧
    (∀ e, (extract_images_and_metadata env url of).1 = Except.error e →
      ∃ msg, e = Exc.osError msg) := by
  constructor
  · intro msg h
    simp only [extract_images_and_metadata]
    rw [h]
  · intro e h
    simp only [extract_images_and_metadata] at h
    rcases hf : (send_request_with_retries env url).1 with ex | r
    · rcases ex with m | m
      · rw [hf] at h
        simp at h
      · rw [hf] at h
        simp at h
        exact ⟨m, h.symm⟩
    · rw [hf] at h
      rcases hm : env.mkdir (pathJoin of (projectNameFor env url)) with _ | m
      · rw [hm] at h
        simp at h
      · rw [hm] at h
        simp at h
        exact ⟨m, h.symm⟩

/-- C3 witness: on the always-failing network the page result is the
`{url, error}` dictionary. -/
theorem C3_page_level_catch_witness :
    (extract_images_and_metadata envFail "http://a" "/out").1
      = Except.ok (Entry.err "http://a" "boom") :=
  (C3_page_level_catch envFail "http://a" "/out").1 "boom" rfl

/-- C8 (confirmed): when the page fetch fails after all retries, the page
result is the `{url, error}` dictionary carrying the final failure
message, no directory is created and no file is written for that URL, and
no image download is attempted: the only network attempts in the page's
effect log are the page fetch's own. -/
theorem C8_fetch_failure_isolated (env : Env) (url of msg : String)
    (h : (send_request_with_retries env url).1
      = Except.error (Exc.requestException msg)) :
    (extract_images_and_metadata env url of).1 = Except.ok (Entry.err url msg) ∧
    (extract_images_and_metadata env url of).2.dirs = [] ∧
    (extract_images_and_metadata env url of).2.writes = [] ∧
    (extract_images_and_metadata env url of).2.timeouts
      = (send_request_with_retries env url).2.timeouts := by
  simp only [extract_images_and_metadata]
  rw [h]
  exact ⟨rfl, (send_no_fs_effects env url).1, (send_no_fs_effects env url).2, rfl⟩

/-- C8 witness: the statement at the always-failing environment. -/
theorem C8_fetch_failure_isolated_witness :
    (extract_images_and_metadata envFail "http://a" "/out").1
      = Except.ok (Entry.err "http://a" "boom") ∧
    (extract_images_and_metadata envFail "http://a" "/out").2.dirs = [] ∧
    (extract_images_and_metadata envFail "http://a" "/out").2.writes = [] ∧
    (extract_images_and_metadata envFail "http://a" "/out").2.timeouts
      = (send_request_with_retries envFail "http://a").2.timeouts :=
  C8_fetch_failure_isolated envFail "http://a" "/out" "boom" rfl

/-! ## C9 — image counting -/

/-- Lemma: the successful-download list of the image loop has exactly one
element per image URL whose download returned a path, and never more
elements than image URLs. -/
theorem downloadImages_count (env : Env) (pf : String) (urls : List String) :
    (downloadImages env pf urls).1.length
      = (urls.filter
          (fun u => (download_file env u pf "unknown").1.isSome)).length ∧
    (downloadImages env pf urls).1.length ≤ urls.length := by
  induction urls with
  | nil => simp [downloadImages]
  | cons u rest ih =>
    rcases h : (download_file env u pf "unknown").1 with _ | p
    · simp only [downloadImages, h, List.filter_cons]
      constructor
      · simp [h, ih.1]
      · exact Nat.le_succ_of_le ih.2
    · simp only [downloadImages, h, List.filter_cons]
      constructor
      · simp [h, ih.1]
      · simpa using Nat.succ_le_succ ih.2

/-- C9 (confirmed): for a successfully fetched page, the page result is
the success dictionary whose `image_count` is the number of extracted
image URLs whose individual download succeeded (returned a path), which
is at most the number of extracted image URLs; download failures are
absorbed inside `download_file` (which returns `none` instead of raising),
so the page result is a success dictionary, not an exception. -/
theorem C9_image_count (env : Env) (url of : String) (r : Response)
    (hfetch : (send_request_with_retries env url).1 = Except.ok r)
    (hmk : env.mkdir (pathJoin of (projectNameFor env url)) = none) :
    (extract_images_and_metadata env url of).1
      = Except.ok (Entry.ok url
          ((env.parse r.text).title.getD "No Title Available")
          (projectNameFor env url)
          ((imgURLs env url r).filter
            (fun u => (download_file env u (pathJoin of (projectNameFor env url))
              "unknown").1.isSome)).length
          (pathJoin of (projectNameFor env url))) ∧
    ((imgURLs env url r).filter
      (fun u => (download_file env u (pathJoin of (projectNameFor env url))
        "unknown").1.isSome)).length ≤ (imgURLs env url r).length := by
  constructor
  · simp only [extract_images_and_metadata]
    rw [hfetch, hmk]
    simp [(downloadImages_count env (pathJoin of (projectNameFor env url))
      (imgURLs env url r)).1]
  · exact ((downloadImages_count env (pathJoin of (projectNameFor env url))
      (imgURLs env url r)).1.symm.trans_le
      (downloadImages_count env (pathJoin of (projectNameFor env url))
        (imgURLs env url r)).2)

/-- C9 witness: a page with two images, one downloadable and one not,
yields a success result with `image_count = 1` out of 2. -/
theorem C9_image_count_witness :
    (extract_images_and_metadata envMixed "http://h/p/page" "/out").1
      = Except.ok (Entry.ok "http://h/p/page" "T" "page" 1 "/out/page") ∧
    (1 : Nat) ≤ 2 :=
  ⟨((C9_image_count envMixed "http://h/p/page" "/out"
      ⟨some "image/png", "<html>", "B"⟩ rfl rfl).1.trans rfl),
   (C9_image_count envMixed "http://h/p/page" "/out"
      ⟨some "image/png", "<html>", "B"⟩ rfl rfl).2⟩

/-! ## C4 — one result and one spreadsheet row per URL, in order -/

/-- Lemma: the `url` field of every page result equals the processed
URL. -/
theorem extract_url_field (env : Env) (url of : String) (entry : Entry)
    (h : (extract_images_and_metadata env url of).1 = Except.ok entry) :
    entry.urlOf = url := by
  simp only [extract_images_and_metadata] at h
  rcases hf : (send_request_with_retries env url).1 with ex | r
  · rcases ex with m | m
    · rw [hf] at h
      simp at h
      simp [← h, Entry.urlOf]
    · rw [hf] at h
      simp at h
  · rw [hf] at h
    rcases hm : env.mkdir (pathJoin of (projectNameFor env url)) with _ | m
    · rw [hm] at h
      simp at h
      simp [← h, Entry.urlOf]
    · rw [hm] at h
      simp at h

/-- Lemma: when the orchestration loop completes, the produced entries'
url fields are exactly the input URLs in order. -/
theorem scrapeLoop_urls (env : Env) (of : String) (urls : List String)
    (entries : List Entry)
    (h : (scrapeLoop env of urls).1 = Except.ok entries) :
    entries.map Entry.urlOf = urls := by
  induction urls generalizing entries with
  | nil =>
    simp [scrapeLoop] at h
    simp [← h]
  | cons url rest ih =>
    simp only [scrapeLoop] at h
    rcases hp : (extract_images_and_metadata env url of).1 with e | entry
    · rw [hp] at h
      simp at h
    · rw [hp] at h
      rcases hr : (scrapeLoop env of rest).1 with e2 | es
      · rw [hr] at h
        simp at h
      · rw [hr] at h
        simp at h
        simp [← h, extract_url_field env url of entry hp, ih es hr]

/-- C4 (confirmed): whenever `/scrape` completes, the results list has
exactly the length of the input URL list and its i-th entry's url field
is the i-th input URL; and the written spreadsheet is exactly the fixed
header row followed by one data row per result in the same order — one
header row plus one data row per input URL, regardless of per-URL
success or failure. -/
theorem C4_one_row_per_url (env : Env) (urls : List String)
    (results : List Entry) (xp : String) (rows : List (List Cell)) (zfp : String)
    (h : (scrape env (some urls)).1 = ScrapeResp.completed results xp rows zfp) :
    results.length = urls.length ∧
    results.map Entry.urlOf = urls ∧
    rows = excelHeader :: results.map excelRowOf ∧
    rows.length = 1 + urls.length := by
  simp only [scrape, Option.getD_some] at h
  rcases he : urls.isEmpty with _ | _
  · rw [he] at h
    simp at h
    rcases hm : env.mkdir (pathJoin OUTPUT_DIRECTORY ("scraped_" ++ env.now)) with _ | m
    · rw [hm] at h
      rcases hl : (scrapeLoop env (pathJoin OUTPUT_DIRECTORY ("scraped_" ++ env.now))
          urls).1 with e | es
      · rw [hl] at h
        simp at h
      · rw [hl] at h
        simp [save_to_excel] at h
        obtain ⟨h1, _, h3, _⟩ := h
        subst h1
        have hu : es.map Entry.urlOf = urls :=
          scrapeLoop_urls env _ urls es hl
        have hlen : es.length = urls.length := by
          have := congrArg List.length hu
          simpa using this
        refine ⟨hlen, hu, h3.symm, ?_⟩
        rw [← h3]
        simp
        omega
    · rw [hm] at h
      simp at h
  · rw [he] at h
    simp at h

/-- C4 witness: one input URL (whose fetch fails) yields one result and a
two-row spreadsheet (header plus one data row). -/
theorem C4_one_row_per_url_witness :
    [Entry.err "http://a" "boom"].length = ["http://a"].length ∧
    [Entry.err "http://a" "boom"].map Entry.urlOf = ["http://a"] ∧
    [excelHeader, excelRowOf (Entry.err "http://a" "boom")]
      = excelHeader :: [Entry.err "http://a" "boom"].map excelRowOf ∧
    [excelHeader, excelRowOf (Entry.err "http://a" "boom")].length
      = 1 + ["http://a"].length :=
  C4_one_row_per_url envFail ["http://a"] [Entry.err "http://a" "boom"]
    "/tmp/output/scraped_TS/Scraped_Data.xlsx"
    [excelHeader, excelRowOf (Entry.err "http://a" "boom")]
    "/tmp/output/Scraped_Data_TS.zip" rfl

/-! ## C6 and C10 — route-level error statuses and the download route -/

/-- C6 (confirmed): `/scrape` returns the 400 error payload both when the
`urls` field is missing and when it is the empty list; `/download`
returns the 404 error payload when the `path` query parameter is missing,
empty, or names a file that does not exist. -/
theorem C6_error_statuses (env : Env) (fs : String → Bool) (p : String) :
    (scrape env none).1 = ScrapeResp.badRequest "No URLs provided." ∧
    (scrape env (some [])).1 = ScrapeResp.badRequest "No URLs provided." ∧
    download fs none = DownloadResp.notFound "File not found." ∧
    download fs (some "") = DownloadResp.notFound "File not found." ∧
    (fs p = false → download fs (some p) = DownloadResp.notFound "File not found.") := by
  refine ⟨rfl, rfl, rfl, rfl, fun hf => ?_⟩
  by_cases hp : p = "" <;> simp [download, hp, hf]

/-- C6 witness: a nonexistent path yields the 404 payload. -/
theorem C6_error_statuses_witness :
    download (fun _ => false) (some "/tmp/output/nope.zip")
      = DownloadResp.notFound "File not found." :=
  (C6_error_statuses envFail (fun _ => false) "/tmp/output/nope.zip").2.2.2.2 rfl

/-- C10 (confirmed): the `/download` route imposes no containment check:
for every filesystem and every non-empty existing path — in particular
one that is not under `OUTPUT_DIRECTORY` — the file is served as an
attachment. -/
theorem C10_no_containment (fs : String → Bool) (p : String)
    (_hout : isPrefixList OUTPUT_DIRECTORY.data p.data = false)
    (hne : p ≠ "") (hex : fs p = true) :
    download fs (some p) = DownloadResp.sendFile p := by
  simp [download, hne, hex]

/-- C10 witness: `/etc/passwd`, outside the output root, is served. -/
theorem C10_no_containment_witness :
    download (fun q => q == "/etc/passwd") (some "/etc/passwd")
      = DownloadResp.sendFile "/etc/passwd" :=
  C10_no_containment (fun q => q == "/etc/passwd") "/etc/passwd"
    (by decide) (by decide) (by decide)

end FlaskScraper
